import Mathlib

/-!
Verification development for the Weather-App rate-limiting middleware
(src/src/server/api/trpc.ts).

The file shallowly embeds the pieces of trpc.ts that the rate limiter is
made of: the duration validator and its fallback, the request context (the
x-forwarded-for header), the identity key, the middleware body, and the
composition of the guarded and unguarded procedure classes.

The sliding-window counter itself lives in the external @upstash/ratelimit
library and the environment schema lives in env.mjs; neither file is part
of src/, so those two pieces are modelled from the specification (each such
definition carries a doc comment starting with "Modelled from the spec").
Everything else is translated directly from trpc.ts.
-/

namespace WeatherApp

/-- The unit suffixes accepted by the duration regex in trpc.ts line 45,
as lists of characters: ms, s, m, h, d. -/
def durationUnits : List (List Char) := [['m', 's'], ['s'], ['m'], ['h'], ['d']]

/-- Embeds validateDuration (trpc.ts lines 44-47): the anchored regex
decomposes the string into a maximal nonempty digit run followed by exactly
one unit suffix. Because every unit suffix begins with a letter, the greedy
digit scan coincides with the regex semantics. -/
def validateDuration (value : String) : Bool :=
  decide (value.data.takeWhile Char.isDigit ≠ []) &&
    decide (value.data.dropWhile Char.isDigit ∈ durationUnits)

/-- The characterization used by the specification: the string has the form
&lt;integer&gt;&lt;unit&gt; with unit drawn from durationUnits. -/
def DurationForm (value : String) : Prop :=
  ∃ ds rest : List Char, value.data = ds ++ rest ∧ ds ≠ [] ∧
    (∀ c ∈ ds, c.isDigit = true) ∧ rest ∈ durationUnits

/-- Embeds trpc.ts lines 49-53: the interval constant is the configured
environment string when validateDuration accepts it, and the default one-day
window otherwise. Written as a function of the raw environment value. -/
def UPSTASH_RATELIMITER_TIME_INTERVAL (envValue : String) : String :=
  if validateDuration envValue then envValue else "1d"

/-- An inbound request, reduced to what trpc.ts reads from it: its header
map. A header that is absent yields none (JavaScript undefined). -/
structure Req where
  headers : String → Option String

/-- The tRPC context built per request (trpc.ts lines 61-69); the res field
is modelled by the headers recorded in the middleware trace below. -/
structure Ctx where
  ip : Option String

/-- Embeds createTRPCContext (trpc.ts lines 61-69): the ip is read from the
x-forwarded-for header. -/
def createTRPCContext (req : Req) : Ctx :=
  ⟨req.headers "x-forwarded-for"⟩

/-- JavaScript template-literal coercion applied to ctx.ip at trpc.ts line
126: a present header interpolates as itself, an absent header is undefined
and interpolates as the literal string undefined. -/
def ipToString : Option String → String
  | some s => s
  | none => "undefined"

/-- The identity key computed at trpc.ts line 126: the coerced forwarded
address, a colon, and the procedure path. -/
def identifier (ip : Option String) (path : String) : String :=
  ipToString ip ++ ":" ++ path

/-- Modelled from the spec: the external counter store (spec section 6) keyed
by identity strings, holding the count observed for each key within the
active window. src/ only calls the @upstash/ratelimit client, whose code is
not part of this repository, so the store is embedded as an association list
from key to count; window rollover is not modelled because no claim here
depends on the passage of time inside a window. -/
abbrev Store := List (String × Nat)

/-- The count currently recorded for a key; an absent key counts as zero. -/
def storeGet (st : Store) (k : String) : Nat :=
  match st with
  | [] => 0
  | (k', n) :: rest => if k' = k then n else storeGet rest k

/-- Modelled from the spec: the atomic increment-and-read primitive of the
external counter store (spec sections 4.2 step 1 and 6): create the key with
count one if absent, else increment it, and return the post-increment
count. -/
def storeIncr (st : Store) (k : String) : Store × Nat :=
  match st with
  | [] => ([(k, 1)], 1)
  | (k', n) :: rest =>
      if k' = k then ((k', n + 1) :: rest, n + 1)
      else ((k', n) :: (storeIncr rest k).1, (storeIncr rest k).2)

/-- The decision returned by the limiter: the updated store, the allow flag,
and the remaining budget. -/
structure LimitResponse where
  store : Store
  success : Bool
  remaining : Nat
deriving DecidableEq

/-- Modelled from the spec: ratelimit.limit of the @upstash/ratelimit
library (constructed at trpc.ts lines 115-123), per spec section 4.2:
atomically increment the counter for the key; if the post-increment count
exceeds the budget N the decision is denied with remaining zero, otherwise
the decision is allowed with remaining N minus count. -/
def ratelimitLimit (N : Nat) (st : Store) (k : String) : LimitResponse :=
  if (storeIncr st k).2 ≤ N then ⟨(storeIncr st k).1, true, N - (storeIncr st k).2⟩
  else ⟨(storeIncr st k).1, false, 0⟩

/-- The outcome of one guarded or unguarded call, as seen by the framework:
the handler returned a value, a TRPCError with code and message was thrown
(trpc.ts lines 137-140), or the store client's own exception escaped the
middleware uncaught (there is no try/catch around the await at line 128). -/
inductive CallOutcome (α : Type) where
  | handlerResult : α → CallOutcome α
  | trpcError : String → String → CallOutcome α
  | storeError : CallOutcome α
deriving DecidableEq

/-- The observable trace of one call: response headers set (in order),
warnings logged as message and identity-key pairs, whether the underlying
handler ran, and the outcome. -/
structure MwTrace (α : Type) where
  headers : List (String × String)
  warnings : List (String × String)
  handlerInvoked : Bool
  outcome : CallOutcome α

/-- The configuration the middleware reads: the raw environment string for
the token budget (written verbatim into the limit header at trpc.ts lines
130-133) and its parsed integer value N (trpc.ts line 118). -/
structure RateLimitConfig where
  tokensEnv : String
  tokens : Nat

/-- Embeds rateLimitMiddleware (trpc.ts lines 125-143). storeUp records
whether the external counter store is reachable for this call: when it is
not, the awaited limit call throws before any header is set, so the store
exception propagates and the handler never runs. When the store responds,
both headers are set, then a denied decision logs a warning carrying the
identity key and throws TRPCError INTERNAL_SERVER_ERROR, while an allowed
decision passes control to next unchanged. -/
def rateLimitMiddleware {α : Type} (cfg : RateLimitConfig) (storeUp : Bool)
    (st : Store) (ip : Option String) (path : String)
    (next : Store → Store × MwTrace α) : Store × MwTrace α :=
  if storeUp then
    let r := ratelimitLimit cfg.tokens st (identifier ip path)
    let hdrs := [("X-RateLimit-Limit", cfg.tokensEnv),
                 ("X-RateLimit-Remaining", toString r.remaining)]
    if r.success then
      let res := next r.store
      (res.1, ⟨hdrs ++ res.2.headers, res.2.warnings, res.2.handlerInvoked, res.2.outcome⟩)
    else
      (r.store, ⟨hdrs, [("Rate limit exceeded", identifier ip path)], false,
        CallOutcome.trpcError "INTERNAL_SERVER_ERROR" "Rate limit exceeded"⟩)
  else
    (st, ⟨[], [], false, CallOutcome.storeError⟩)

/-- The middleware vocabulary of this server: trpc.ts declares exactly one
middleware. -/
inductive Middleware where
  | rateLimit
deriving DecidableEq

/-- Embeds publicProcedure (trpc.ts line 154): the bare procedure, with no
middleware prepended. -/
def publicProcedure : List Middleware := []

/-- Embeds rateLimitedProcedure (trpc.ts line 155): the bare procedure with
the rate-limit middleware prepended via t.procedure.use. -/
def rateLimitedProcedure : List Middleware := Middleware.rateLimit :: publicProcedure

/-- Runs a procedure's middleware chain, then its handler: the empty chain
invokes the handler directly; a rate-limit link runs rateLimitMiddleware
with the rest of the chain as its next continuation. -/
def runProc {α : Type} (cfg : RateLimitConfig) (storeUp : Bool) (req : Req)
    (path : String) (handler : Unit → α) : List Middleware → Store → Store × MwTrace α
  | [], st => (st, ⟨[], [], true, CallOutcome.handlerResult (handler ())⟩)
  | Middleware.rateLimit :: rest, st =>
      rateLimitMiddleware cfg storeUp st (createTRPCContext req).ip path
        (fun st' => runProc cfg storeUp req path handler rest st')

/-- A call to a guarded (rate-limited) procedure. -/
def runGuarded {α : Type} (cfg : RateLimitConfig) (storeUp : Bool) (req : Req)
    (path : String) (handler : Unit → α) (st : Store) : Store × MwTrace α :=
  runProc cfg storeUp req path handler rateLimitedProcedure st

/-- A call to an unguarded (public) procedure. -/
def runPublic {α : Type} (cfg : RateLimitConfig) (storeUp : Bool) (req : Req)
    (path : String) (handler : Unit → α) (st : Store) : Store × MwTrace α :=
  runProc cfg storeUp req path handler publicProcedure st

/-- Modelled from the spec: how the remote-procedure framework surfaces a
call outcome to the caller. A thrown TRPCError keeps its code; an uncaught
store-client exception is surfaced as a server error, per spec section 4.2
(the failure is treated as an infrastructure error and surfaced to the
caller as a server error); a handler result is no error. -/
def surfacedErrorCode {α : Type} : CallOutcome α → Option String
  | CallOutcome.handlerResult _ => none
  | CallOutcome.trpcError c _ => some c
  | CallOutcome.storeError => some "INTERNAL_SERVER_ERROR"

/-- Reads a decimal numeral from its digit characters. -/
def digitsToNat (acc : Nat) : List Char → Nat
  | [] => acc
  | c :: cs => digitsToNat (acc * 10 + (c.toNat - 48)) cs

/-- Modelled from the spec: env.mjs, which is not under src/, validates the
environment at process start; spec section 6 requires the token budget to be
a positive integer. Returns the validated budget, rejecting anything that is
not a nonempty digit string denoting a positive integer. -/
def validateTokensPerTime (raw : String) : Option Nat :=
  if raw.data ≠ [] ∧ (∀ c ∈ raw.data, c.isDigit = true) ∧ 0 < digitsToNat 0 raw.data then
    some (digitsToNat 0 raw.data)
  else none

/-- Process start (trpc.ts lines 49-53 and 115-123, with env.mjs modelled
from the spec): validation of the token budget and defaulting of the window
interval both happen before the limiter is constructed, hence before any
call is gated; an invalid budget rejects startup. -/
def startupConfig (rawTokens rawInterval : String) : Option (Nat × String) :=
  match validateTokensPerTime rawTokens with
  | some n => some (n, UPSTASH_RATELIMITER_TIME_INTERVAL rawInterval)
  | none => none

/-- Iterates the limiter n times on one key, threading the store: models a
burst of n guarded calls for that key. -/
def iterLimit (N : Nat) (k : String) : Nat → Store → Store
  | 0, st => st
  | n + 1, st => iterLimit N k n (ratelimitLimit N st k).store

/-- The post-increment count returned by the store is the previous count of
the key plus one. -/
theorem storeIncr_snd (st : Store) (k : String) : (storeIncr st k).2 = storeGet st k + 1 := by
  induction st with
  | nil => rfl
  | cons hd tl ih =>
      obtain ⟨k', n⟩ := hd
      by_cases h : k' = k
      · simp [storeIncr, storeGet, h]
      · simp [storeIncr, storeGet, h, ih]

/-- After an increment, the incremented key's stored count has grown by one. -/
theorem storeIncr_get_same (st : Store) (k : String) :
    storeGet (storeIncr st k).1 k = storeGet st k + 1 := by
  induction st with
  | nil => simp [storeIncr, storeGet]
  | cons hd tl ih =>
      obtain ⟨k', n⟩ := hd
      by_cases h : k' = k
      · simp [storeIncr, storeGet, h]
      · simp [storeIncr, storeGet, h, ih]

/-- An increment of one key leaves every other key's stored count unchanged. -/
theorem storeIncr_get_other (st : Store) (k k' : String) (hne : k' ≠ k) :
    storeGet (storeIncr st k).1 k' = storeGet st k' := by
  induction st with
  | nil => simp [storeIncr, storeGet, Ne.symm hne]
  | cons hd tl ih =>
      obtain ⟨k1, n⟩ := hd
      by_cases h : k1 = k
      · subst h
        simp [storeIncr, storeGet, Ne.symm hne]
      · simp [storeIncr, storeGet, h, ih]

/-- Both branches of the limiter return the incremented store. -/
theorem ratelimitLimit_store (N : Nat) (st : Store) (k : String) :
    (ratelimitLimit N st k).store = (storeIncr st k).1 := by
  unfold ratelimitLimit
  split <;> rfl

/-- The remaining budget reported by the limiter, in terms of the
post-increment count. -/
theorem ratelimitLimit_remaining (N : Nat) (st : Store) (k : String) :
    (ratelimitLimit N st k).remaining =
      if (storeIncr st k).2 ≤ N then N - (storeIncr st k).2 else 0 := by
  unfold ratelimitLimit
  split <;> simp_all

/-- The allow flag reported by the limiter, in terms of the post-increment
count. -/
theorem ratelimitLimit_success (N : Nat) (st : Store) (k : String) :
    (ratelimitLimit N st k).success = decide ((storeIncr st k).2 ≤ N) := by
  unfold ratelimitLimit
  split <;> simp_all

/-- Limiter decisions for a key agree between two stores that record the same
count for that key. -/
theorem ratelimitLimit_congr_count (N : Nat) (st st' : Store) (k : String)
    (h : storeGet st k = storeGet st' k) :
    (ratelimitLimit N st k).remaining = (ratelimitLimit N st' k).remaining ∧
    (ratelimitLimit N st k).success = (ratelimitLimit N st' k).success := by
  constructor
  · rw [ratelimitLimit_remaining, ratelimitLimit_remaining, storeIncr_snd, storeIncr_snd, h]
  · rw [ratelimitLimit_success, ratelimitLimit_success, storeIncr_snd, storeIncr_snd, h]

/-- A burst of limiter calls on one key never changes the stored count of a
different key. -/
theorem iterLimit_get_other (N : Nat) (k k' : String) (hne : k' ≠ k) :
    ∀ (n : Nat) (st : Store), storeGet (iterLimit N k n st) k' = storeGet st k'
  | 0, _ => rfl
  | n + 1, st => by
      rw [iterLimit, iterLimit_get_other N k k' hne n, ratelimitLimit_store,
        storeIncr_get_other st k k' hne]

/-- Greedy scan of a digit run followed by a block that does not start with a
digit recovers exactly that decomposition. -/
theorem takeWhile_all_append (p : Char → Bool) :
    ∀ (ds rest : List Char), (∀ c ∈ ds, p c = true) →
      (∀ c cs, rest = c :: cs → p c = false) →
      (ds ++ rest).takeWhile p = ds ∧ (ds ++ rest).dropWhile p = rest
  | [], [], _, _ => ⟨rfl, rfl⟩
  | [], c :: cs, _, h2 => by
      have hc := h2 c cs rfl
      simp [List.takeWhile_cons, List.dropWhile_cons, hc]
  | d :: ds, rest, h1, h2 => by
      have hd : p d = true := h1 d (by simp)
      have ih := takeWhile_all_append p ds rest (fun c hc => h1 c (by simp [hc])) h2
      simp [List.takeWhile_cons, List.dropWhile_cons, hd, ih.1, ih.2]

/-- Every unit suffix starts with a letter, never a digit. -/
theorem durationUnits_head_not_digit (rest : List Char) (h : rest ∈ durationUnits) :
    ∀ c cs, rest = c :: cs → c.isDigit = false := by
  intro c cs hc
  subst hc
  simp only [durationUnits, List.mem_cons, List.not_mem_nil, or_false] at h
  rcases h with h | h | h | h | h <;> (injection h with h1 _; subst h1; decide)

/-- The regex test in validateDuration accepts exactly the strings of the
form integer-plus-unit described by the spec. -/
theorem validateDuration_iff (value : String) :
    validateDuration value = true ↔ DurationForm value := by
  constructor
  · intro h
    unfold validateDuration at h
    rw [Bool.and_eq_true, decide_eq_true_eq, decide_eq_true_eq] at h
    exact ⟨value.data.takeWhile Char.isDigit, value.data.dropWhile Char.isDigit,
      (List.takeWhile_append_dropWhile Char.isDigit value.data).symm, h.1,
      fun c hc => List.mem_takeWhile_imp hc, h.2⟩
  · rintro ⟨ds, rest, hsplit, hne, hdig, hmem⟩
    have hhead := durationUnits_head_not_digit rest hmem
    have htd := takeWhile_all_append Char.isDigit ds rest hdig hhead
    unfold validateDuration
    rw [Bool.and_eq_true, decide_eq_true_eq, decide_eq_true_eq, hsplit, htd.1, htd.2]
    exact ⟨hne, hmem⟩

/-- Identity keys built from the same address but different operation paths
are different strings. -/
theorem identifier_ne_of_path_ne (ip : Option String) (pA pB : String) (hne : pA ≠ pB) :
    identifier ip pA ≠ identifier ip pB := by
  intro h
  apply hne
  apply String.ext
  have h' := congrArg String.data h
  simp only [identifier, String.data_append, List.append_assoc] at h'
  exact List.append_cancel_left (List.append_cancel_left h')

/-- When the store is up, a guarded call's resulting store is the store after
the single increment of the call's identity key. -/
theorem runGuarded_store {α : Type} (cfg : RateLimitConfig) (req : Req) (path : String)
    (handler : Unit → α) (st : Store) :
    (runGuarded cfg true req path handler st).1 =
      (storeIncr st (identifier (createTRPCContext req).ip path)).1 := by
  unfold runGuarded rateLimitedProcedure publicProcedure runProc rateLimitMiddleware
  cases hs : (ratelimitLimit cfg.tokens st (identifier (createTRPCContext req).ip path)).success <;>
    simp [hs, ratelimitLimit_store, runProc]

/-- C1: for every guarded call, the atomic increment for the call's identity
key makes the post-increment count the previous stored count plus one; if
that count is at most the configured budget N the quota decision is allowed
with remaining exactly N minus count, and if it exceeds N the decision is
denied with remaining zero. -/
theorem C1_quota_decision (N : Nat) (st : Store) (k : String) :
    (storeIncr st k).2 = storeGet st k + 1 ∧
    ((storeIncr st k).2 ≤ N →
      ratelimitLimit N st k = ⟨(storeIncr st k).1, true, N - (storeIncr st k).2⟩) ∧
    (N < (storeIncr st k).2 →
      ratelimitLimit N st k = ⟨(storeIncr st k).1, false, 0⟩) := by
  refine ⟨storeIncr_snd st k, ?_, ?_⟩
  · intro h
    unfold ratelimitLimit
    rw [if_pos h]
  · intro h
    unfold ratelimitLimit
    rw [if_neg (Nat.not_le.mpr h)]

/-- Witness for C1 at budget one: the first call for a fresh key is allowed
with remaining zero, and the second call for the same key is denied with
remaining zero. -/
theorem C1_quota_decision_witness :
    ratelimitLimit 1 [] "1.2.3.4:example.hello" =
      ⟨[("1.2.3.4:example.hello", 1)], true, 0⟩ ∧
    ratelimitLimit 1 [("1.2.3.4:example.hello", 1)] "1.2.3.4:example.hello" =
      ⟨[("1.2.3.4:example.hello", 2)], false, 0⟩ :=
  ⟨(C1_quota_decision 1 [] "1.2.3.4:example.hello").2.1 (by decide),
   (C1_quota_decision 1 [("1.2.3.4:example.hello", 1)] "1.2.3.4:example.hello").2.2 (by decide)⟩

/-- C2: when the external counter store operation fails, the guarded call is
surfaced to the caller as a server error, the underlying handler is never
invoked, the outcome is the propagated store failure rather than any allowed
decision, and the store is left untouched: the gate fails closed, never
open. -/
theorem C2_fail_closed {α : Type} (cfg : RateLimitConfig) (req : Req) (path : String)
    (handler : Unit → α) (st : Store) :
    (runGuarded cfg false req path handler st).2.handlerInvoked = false ∧
    (runGuarded cfg false req path handler st).2.outcome = CallOutcome.storeError ∧
    surfacedErrorCode (runGuarded cfg false req path handler st).2.outcome =
      some "INTERNAL_SERVER_ERROR" ∧
    (runGuarded cfg false req path handler st).1 = st :=
  ⟨rfl, rfl, rfl, rfl⟩

/-- C3: on a quota-denied guarded call the handler is never invoked, a
warning carrying the identity key is logged, and the rejection is the fixed
structured TRPCError with code INTERNAL_SERVER_ERROR and message Rate limit
exceeded, a code distinct from the validation code BAD_REQUEST and from the
not-found code NOT_FOUND. -/
theorem C3_deny_rejection {α : Type} (cfg : RateLimitConfig) (req : Req) (path : String)
    (handler : Unit → α) (st : Store)
    (hdeny : cfg.tokens < (storeIncr st (identifier (createTRPCContext req).ip path)).2) :
    (runGuarded cfg true req path handler st).2.handlerInvoked = false ∧
    (runGuarded cfg true req path handler st).2.warnings =
      [("Rate limit exceeded", identifier (createTRPCContext req).ip path)] ∧
    (runGuarded cfg true req path handler st).2.outcome =
      CallOutcome.trpcError "INTERNAL_SERVER_ERROR" "Rate limit exceeded" ∧
    ("INTERNAL_SERVER_ERROR" ≠ "BAD_REQUEST" ∧ "INTERNAL_SERVER_ERROR" ≠ "NOT_FOUND") := by
  have hsucc : (ratelimitLimit cfg.tokens st (identifier (createTRPCContext req).ip path)).success = false := by
    rw [ratelimitLimit_success, decide_eq_false_iff_not]
    exact Nat.not_le.mpr hdeny
  unfold runGuarded rateLimitedProcedure publicProcedure runProc rateLimitMiddleware
  simp [hsucc]

/-- Witness for C3: with budget one and a stored count of one for the
header-less bucket of operation p, the next call is denied, logs the key and
throws the fixed error. -/
theorem C3_deny_rejection_witness :
    (1 < (storeIncr [("undefined:p", 1)]
        (identifier (createTRPCContext ⟨fun _ => none⟩).ip "p")).2) ∧
    ((runGuarded ⟨"1", 1⟩ true ⟨fun _ => none⟩ "p" (fun _ => (0 : Nat))
        [("undefined:p", 1)]).2.handlerInvoked = false ∧
      (runGuarded ⟨"1", 1⟩ true ⟨fun _ => none⟩ "p" (fun _ => (0 : Nat))
        [("undefined:p", 1)]).2.warnings =
        [("Rate limit exceeded", identifier (createTRPCContext ⟨fun _ => none⟩).ip "p")] ∧
      (runGuarded ⟨"1", 1⟩ true ⟨fun _ => none⟩ "p" (fun _ => (0 : Nat))
        [("undefined:p", 1)]).2.outcome =
        CallOutcome.trpcError "INTERNAL_SERVER_ERROR" "Rate limit exceeded" ∧
      ("INTERNAL_SERVER_ERROR" ≠ "BAD_REQUEST" ∧ "INTERNAL_SERVER_ERROR" ≠ "NOT_FOUND")) :=
  ⟨by decide,
   C3_deny_rejection ⟨"1", 1⟩ ⟨fun _ => none⟩ "p" (fun _ => (0 : Nat))
     [("undefined:p", 1)] (by decide)⟩

/-- C4: calls with the same forwarded address and the same operation path
yield the same identity key; the same address with different paths yields
different keys; and a burst of n guarded calls for operation pA leaves both
the stored count and the next-call decision (remaining and allow flag) of
operation pB unchanged. -/
theorem C4_per_operation_isolation (ip ip' : Option String) (pA pB : String)
    (N n : Nat) (st : Store) (hip : ip = ip') (hne : pA ≠ pB) :
    identifier ip pA = identifier ip' pA ∧
    identifier ip pA ≠ identifier ip' pB ∧
    storeGet (iterLimit N (identifier ip pA) n st) (identifier ip' pB) =
      storeGet st (identifier ip' pB) ∧
    (ratelimitLimit N (iterLimit N (identifier ip pA) n st) (identifier ip' pB)).remaining =
      (ratelimitLimit N st (identifier ip' pB)).remaining ∧
    (ratelimitLimit N (iterLimit N (identifier ip pA) n st) (identifier ip' pB)).success =
      (ratelimitLimit N st (identifier ip' pB)).success := by
  subst hip
  have hkey : identifier ip pB ≠ identifier ip pA :=
    identifier_ne_of_path_ne ip pB pA (Ne.symm hne)
  have hget := iterLimit_get_other N (identifier ip pA) (identifier ip pB) hkey n st
  have hcongr := ratelimitLimit_congr_count N
    (iterLimit N (identifier ip pA) n st) st (identifier ip pB) hget
  exact ⟨rfl, identifier_ne_of_path_ne ip pA pB hne, hget, hcongr.1, hcongr.2⟩

/-- Witness for C4: address 9.9.9.9, operations a and b, budget two, a burst
of three calls to a. -/
theorem C4_per_operation_isolation_witness :
    identifier (some "9.9.9.9") "a" = identifier (some "9.9.9.9") "a" ∧
    identifier (some "9.9.9.9") "a" ≠ identifier (some "9.9.9.9") "b" ∧
    storeGet (iterLimit 2 (identifier (some "9.9.9.9") "a") 3 [])
        (identifier (some "9.9.9.9") "b") =
      storeGet [] (identifier (some "9.9.9.9") "b") ∧
    (ratelimitLimit 2 (iterLimit 2 (identifier (some "9.9.9.9") "a") 3 [])
        (identifier (some "9.9.9.9") "b")).remaining =
      (ratelimitLimit 2 [] (identifier (some "9.9.9.9") "b")).remaining ∧
    (ratelimitLimit 2 (iterLimit 2 (identifier (some "9.9.9.9") "a") 3 [])
        (identifier (some "9.9.9.9") "b")).success =
      (ratelimitLimit 2 [] (identifier (some "9.9.9.9") "b")).success :=
  C4_per_operation_isolation (some "9.9.9.9") (some "9.9.9.9") "a" "b" 2 3 [] rfl (by decide)

/-- C5: a configured window string that is not of the form integer-plus-unit
with unit among ms, s, m, h, d makes the gate use the default one-day window
instead of failing startup, and a string of that form is used as
configured. -/
theorem C5_interval_fallback (value : String) :
    (¬ DurationForm value → UPSTASH_RATELIMITER_TIME_INTERVAL value = "1d") ∧
    (DurationForm value → UPSTASH_RATELIMITER_TIME_INTERVAL value = value) := by
  constructor
  · intro h
    unfold UPSTASH_RATELIMITER_TIME_INTERVAL
    rw [if_neg]
    intro hv
    exact h ((validateDuration_iff value).1 hv)
  · intro h
    unfold UPSTASH_RATELIMITER_TIME_INTERVAL
    rw [if_pos ((validateDuration_iff value).2 h)]

/-- Witness for C5 on the spec's own examples: the malformed strings 5 days
and 5x fall back to 1d, while the well-formed 30m is kept. -/
theorem C5_interval_fallback_witness :
    UPSTASH_RATELIMITER_TIME_INTERVAL "5 days" = "1d" ∧
    UPSTASH_RATELIMITER_TIME_INTERVAL "5x" = "1d" ∧
    UPSTASH_RATELIMITER_TIME_INTERVAL "30m" = "30m" :=
  ⟨(C5_interval_fallback "5 days").1
      (fun h => absurd ((validateDuration_iff "5 days").2 h) (by decide)),
   (C5_interval_fallback "5x").1
      (fun h => absurd ((validateDuration_iff "5x").2 h) (by decide)),
   (C5_interval_fallback "30m").2 ((validateDuration_iff "30m").1 (by decide))⟩

/-- C6: whenever the store responds, the guarded call sets both response
headers regardless of the decision: the limit header to the configured token
budget string and the remaining header to the decision's remaining budget;
the single equality covers allowed and quota-rejected calls alike. -/
theorem C6_headers_always_set {α : Type} (cfg : RateLimitConfig) (req : Req)
    (path : String) (handler : Unit → α) (st : Store) :
    (runGuarded cfg true req path handler st).2.headers =
      [("X-RateLimit-Limit", cfg.tokensEnv),
       ("X-RateLimit-Remaining",
        toString (ratelimitLimit cfg.tokens st
          (identifier (createTRPCContext req).ip path)).remaining)] := by
  unfold runGuarded rateLimitedProcedure publicProcedure runProc rateLimitMiddleware
  cases hs : (ratelimitLimit cfg.tokens st (identifier (createTRPCContext req).ip path)).success <;>
    simp [hs, runProc]

/-- C7: the guarded procedure is exactly the unguarded procedure with the
rate-limit middleware prepended, and on an allowed call the guarded call's
outcome coincides with the unguarded call's outcome, namely the handler's
own result: control passes through unchanged. -/
theorem C7_guarded_refines_public {α : Type} (cfg : RateLimitConfig) (req : Req)
    (path : String) (handler : Unit → α) (st : Store)
    (hallow : (storeIncr st (identifier (createTRPCContext req).ip path)).2 ≤ cfg.tokens) :
    rateLimitedProcedure = Middleware.rateLimit :: publicProcedure ∧
    (runGuarded cfg true req path handler st).2.outcome =
      (runPublic cfg true req path handler st).2.outcome ∧
    (runPublic cfg true req path handler st).2.outcome =
      CallOutcome.handlerResult (handler ()) ∧
    (runGuarded cfg true req path handler st).2.handlerInvoked = true := by
  have hsucc : (ratelimitLimit cfg.tokens st (identifier (createTRPCContext req).ip path)).success = true := by
    rw [ratelimitLimit_success, decide_eq_true_eq]
    exact hallow
  refine ⟨rfl, ?_, rfl, ?_⟩ <;>
    simp [runGuarded, runPublic, rateLimitedProcedure, publicProcedure, runProc,
      rateLimitMiddleware, hsucc]

/-- Witness for C7: a fresh key under budget two is allowed and the guarded
call returns the handler's value 42 exactly as the unguarded call does. -/
theorem C7_guarded_refines_public_witness :
    ((storeIncr ([] : Store)
        (identifier (createTRPCContext ⟨fun _ => none⟩).ip "p")).2 ≤ 2) ∧
    (rateLimitedProcedure = Middleware.rateLimit :: publicProcedure ∧
      (runGuarded ⟨"2", 2⟩ true ⟨fun _ => none⟩ "p" (fun _ => (42 : Nat)) []).2.outcome =
        (runPublic ⟨"2", 2⟩ true ⟨fun _ => none⟩ "p" (fun _ => (42 : Nat)) []).2.outcome ∧
      (runPublic ⟨"2", 2⟩ true ⟨fun _ => none⟩ "p" (fun _ => (42 : Nat)) []).2.outcome =
        CallOutcome.handlerResult 42 ∧
      (runGuarded ⟨"2", 2⟩ true ⟨fun _ => none⟩ "p" (fun _ => (42 : Nat)) []).2.handlerInvoked =
        true) :=
  ⟨by decide,
   C7_guarded_refines_public ⟨"2", 2⟩ ⟨fun _ => none⟩ "p" (fun _ => (42 : Nat)) [] (by decide)⟩

/-- C8: startup only constructs the limiter from a token-budget value the
validation accepted, and every accepted value is positive and comes from a
nonempty all-digit numeral; invalid values are rejected before any call is
gated. -/
theorem C8_tokens_validated (rawTokens rawInterval : String) (n : Nat) (w : String)
    (h : startupConfig rawTokens rawInterval = some (n, w)) :
    0 < n ∧ rawTokens.data ≠ [] ∧ (∀ c ∈ rawTokens.data, c.isDigit = true) := by
  have hv : validateTokensPerTime rawTokens = some n := by
    unfold startupConfig at h
    cases hw : validateTokensPerTime rawTokens with
    | none => rw [hw] at h; cases h
    | some m =>
        rw [hw] at h
        simp only [Option.some.injEq, Prod.mk.injEq] at h
        rw [h.1]
  unfold validateTokensPerTime at hv
  by_cases hc : rawTokens.data ≠ [] ∧ (∀ c ∈ rawTokens.data, c.isDigit = true) ∧
      0 < digitsToNat 0 rawTokens.data
  · rw [if_pos hc] at hv
    obtain ⟨h1, h2, h3⟩ := hc
    exact ⟨Option.some.inj hv ▸ h3, h1, h2⟩
  · rw [if_neg hc] at hv
    cases hv

/-- Witness for C8: the budget string 10 with window 1h starts up with the
positive budget ten. -/
theorem C8_tokens_validated_witness :
    startupConfig "10" "1h" = some (10, "1h") ∧
    (0 < 10 ∧ ("10" : String).data ≠ [] ∧ (∀ c ∈ ("10" : String).data, c.isDigit = true)) :=
  ⟨by decide, C8_tokens_validated "10" "1h" 10 "1h" (by decide)⟩

/-- C9: the identity resolver is a deterministic function of exactly the
forwarded address and the operation path: equal inputs produce equal
identity keys (freedom from side effects holds by construction, matching the
side-effect-free string interpolation at trpc.ts line 126). -/
theorem C9_resolver_deterministic (ip₁ ip₂ : Option String) (p₁ p₂ : String)
    (hip : ip₁ = ip₂) (hp : p₁ = p₂) :
    identifier ip₁ p₁ = identifier ip₂ p₂ := by
  rw [hip, hp]

/-- Witness for C9 at a concrete address and path. -/
theorem C9_resolver_deterministic_witness :
    identifier (some "1.2.3.4") "weather.getForecast" =
      identifier (some "1.2.3.4") "weather.getForecast" :=
  C9_resolver_deterministic (some "1.2.3.4") (some "1.2.3.4")
    "weather.getForecast" "weather.getForecast" rfl rfl

/-- C10: a guarded call whose request has no forwarded-address header uses
the identity key undefined: followed by the operation path, every
header-less caller of the same operation gets that same key (one shared
bucket), and the guarded call increments exactly that shared bucket. -/
theorem C10_headerless_shared_bucket {α : Type} (cfg : RateLimitConfig)
    (req₁ req₂ : Req) (path : String) (handler : Unit → α) (st : Store)
    (h1 : req₁.headers "x-forwarded-for" = none)
    (h2 : req₂.headers "x-forwarded-for" = none) :
    identifier (createTRPCContext req₁).ip path = "undefined:" ++ path ∧
    identifier (createTRPCContext req₁).ip path =
      identifier (createTRPCContext req₂).ip path ∧
    storeGet (runGuarded cfg true req₁ path handler st).1 ("undefined:" ++ path) =
      storeGet st ("undefined:" ++ path) + 1 := by
  have hcolon : ("undefined" ++ ":" : String) = "undefined:" := by decide
  have hid : ∀ req : Req, req.headers "x-forwarded-for" = none →
      identifier (createTRPCContext req).ip path = "undefined:" ++ path := by
    intro req h
    simp only [identifier, createTRPCContext, h, ipToString]
    rw [hcolon]
  refine ⟨hid req₁ h1, (hid req₁ h1).trans (hid req₂ h2).symm, ?_⟩
  rw [runGuarded_store, hid req₁ h1, storeIncr_get_same]

/-- Witness for C10: a header-less request to operation p lands in the
shared bucket undefined:p and increments it from zero to one. -/
theorem C10_headerless_shared_bucket_witness :
    identifier (createTRPCContext ⟨fun _ => none⟩).ip "p" = "undefined:" ++ "p" ∧
    identifier (createTRPCContext ⟨fun _ => none⟩).ip "p" =
      identifier (createTRPCContext ⟨fun _ => none⟩).ip "p" ∧
    storeGet (runGuarded ⟨"2", 2⟩ true ⟨fun _ => none⟩ "p" (fun _ => (0 : Nat)) []).1
        ("undefined:" ++ "p") =
      storeGet [] ("undefined:" ++ "p") + 1 :=
  C10_headerless_shared_bucket ⟨"2", 2⟩ ⟨fun _ => none⟩ ⟨fun _ => none⟩ "p"
    (fun _ => (0 : Nat)) [] rfl rfl

end WeatherApp
